import Mathlib

/-!
Verification of the request-dispatch core of a static-file web server
(`src/handler.rs`, `RequestHandler::handle`).

The dispatcher is embedded shallowly: the external collaborator modules
(health, metrics, cors, basic_auth, maintenance_mode, redirects, rewrites,
virtual_hosts, static_files, error_page and the seven post-transform
stages) are abstract functions collected in the structure `Ext`, exactly
with the signatures the dispatcher consumes.  The dispatcher itself is the
function `handleT`, a line-by-line translation of `handle` which in
addition records a ghost trace of the stages it invoked (`List Ev`), used
to state the ordering and short-circuit properties.
-/

namespace SWS

/-- HTTP headers as an association list of name/value pairs. -/
abbrev HeaderMap := List (String × String)

/-- An HTTP response as seen by the dispatcher (status, headers, body). -/
structure Response where
  status : Nat
  headers : HeaderMap
  body : String
deriving DecidableEq, Repr

/-- An HTTP request as consumed by the dispatcher: method, URI path and
query, headers.  The body is never inspected by the dispatcher. -/
structure Request where
  method : String
  uriPath : String
  uriQuery : Option String
  headers : HeaderMap
deriving DecidableEq, Repr

/-- The crate's opaque fatal `Error` type, abstracted as a string. -/
abbrev Err := String

/-- `Result<Response, Error>`. -/
abbrev RespResult := Except Err Response

/-- `DirListFmt` from the directory-listing feature. -/
inductive DirListFmt where
  | Html
  | Json
deriving DecidableEq, Repr

/-- A configured virtual host: a host-header value mapped to an alternate
root directory. -/
structure VirtualHost where
  host : String
  root : String
deriving DecidableEq, Repr

/-- CORS configuration object (`cors::Configured`); opaque to the
dispatcher, which only passes it along inside the options. -/
structure CorsConfigured where
  allowOriginsStr : String
deriving DecidableEq, Repr

/-- Advanced options from the config file (`settings::Advanced`); the
dispatcher reads only the virtual-hosts table. -/
structure Advanced where
  virtual_hosts : Option (List VirtualHost)
deriving DecidableEq, Repr

/-- `RequestHandlerOpts`: the immutable configuration snapshot
(handler.rs lines 43-103).  Paths are modelled as strings. -/
structure RequestHandlerOpts where
  root_dir : String
  compression : Bool
  compression_static : Bool
  dir_listing : Bool
  dir_listing_order : Nat
  dir_listing_format : DirListFmt
  cors : Option CorsConfigured
  security_headers : Bool
  cache_control_headers : Bool
  page404 : String
  page50x : String
  page_fallback : List Nat
  basic_auth : String
  index_files : List String
  log_remote_address : Bool
  redirect_trailing_slash : Bool
  ignore_hidden_files : Bool
  health : Bool
  experimental_metrics : Bool
  maintenance_mode : Bool
  maintenance_mode_status : Nat
  maintenance_mode_file : String
  advanced_opts : Option Advanced
deriving DecidableEq, Repr

/-- `static_files::HandleOpts`: the argument record passed to the static
resolver (handler.rs lines 254-270). -/
structure HandleOpts where
  method : String
  headers : HeaderMap
  base_path : String
  uri_path : String
  uri_query : Option String
  dir_listing : Bool
  dir_listing_order : Nat
  dir_listing_format : DirListFmt
  redirect_trailing_slash : Bool
  compression_static : Bool
  ignore_hidden_files : Bool
  index_files : List String
deriving DecidableEq, Repr

/-- Successful static resolution: the response plus the resolved
filesystem path. -/
structure StaticFileResult where
  resp : Response
  file_path : String
deriving DecidableEq, Repr

/-- The external collaborator modules, abstracted with exactly the
signatures the dispatcher consumes.  Pre-filter stages return
`Option (Result Response)` (`some` = terminal, `none` = continue);
`rewrites_pre` additionally returns the (possibly mutated) request, since
the source hands it a mutable request; post-transform stages return
`Result Response`. -/
structure Ext where
  is_allowed : String → Bool
  health_pre : RequestHandlerOpts → Request → String → Option RespResult
  metrics_pre : RequestHandlerOpts → Request → Option RespResult
  cors_pre : RequestHandlerOpts → Request → Option RespResult
  basic_auth_pre : RequestHandlerOpts → Request → Option RespResult
  maintenance_pre : RequestHandlerOpts → Request → Option RespResult
  redirects_pre : RequestHandlerOpts → Request → Option RespResult
  rewrites_pre : RequestHandlerOpts → Request → Option RespResult × Request
  get_real_root : HeaderMap → Option (List VirtualHost) → Option String
  static_handle : HandleOpts → Except Nat StaticFileResult
  error_response : String → String → Nat → String → String → RespResult
  fallback_post : RequestHandlerOpts → Request → Response → RespResult
  cors_post : RequestHandlerOpts → Request → Response → RespResult
  compression_static_post : RequestHandlerOpts → Request → Response → RespResult
  compression_post : RequestHandlerOpts → Request → Response → RespResult
  control_headers_post : RequestHandlerOpts → Request → Response → RespResult
  security_headers_post : RequestHandlerOpts → Request → Response → RespResult
  custom_headers_post : RequestHandlerOpts → Request → Response → Option String → RespResult
  ip_parse : String → Option String

/-- Case-insensitive header lookup, as hyper's `HeaderMap::get`. -/
def headerGet (hs : HeaderMap) (name : String) : Option String :=
  (hs.find? (fun p => p.1.toLower == name.toLower)).map Prod.snd

/-- Lines 173-178: the `X-Forwarded-For` client IP, if the header's first
comma-separated element, after trimming, parses as an IP address. -/
def xff_client_ip (ext : Ext) (headers : HeaderMap) : Option String :=
  (headerGet headers "X-Forwarded-For").bind fun v =>
    ((v.splitOn ",").head?).bind fun s => ext.ip_parse s.trim

/-- Lines 167-183: the remote-address log annotation string.  The socket
address is modelled by its textual form (`Option String`). -/
def remote_addr_str (ext : Ext) (opts : RequestHandlerOpts) (req : Request)
    (remote_addr : Option String) : String :=
  if opts.log_remote_address then
    let s := " remote_addr=" ++ remote_addr.getD ""
    match xff_client_ip ext req.headers with
    | some client_ip_address => s ++ " real_remote_ip=" ++ client_ip_address
    | none => s
  else ""

/-- Lines 241-249: the effective base path after virtual-host resolution:
the configured root directory unless the advanced options carry a
virtual-hosts table and `get_real_root` matches the request's headers. -/
def vhostBase (ext : Ext) (opts : RequestHandlerOpts) (req : Request) : String :=
  match opts.advanced_opts with
  | none => opts.root_dir
  | some advanced =>
    match ext.get_real_root req.headers advanced.virtual_hosts with
    | some root => root
    | none => opts.root_dir

/-- Lines 254-270: the `HandleOpts` record built for the static resolver. -/
def mkHandleOpts (opts : RequestHandlerOpts) (req : Request) (base_path : String) :
    HandleOpts :=
  { method := req.method
    headers := req.headers
    base_path := base_path
    uri_path := req.uriPath
    uri_query := req.uriQuery
    dir_listing := opts.dir_listing
    dir_listing_order := opts.dir_listing_order
    dir_listing_format := opts.dir_listing_format
    redirect_trailing_slash := opts.redirect_trailing_slash
    compression_static := opts.compression_static
    ignore_hidden_files := opts.ignore_hidden_files
    index_files := opts.index_files }

instance instDecEqExcept {ε α : Type} [DecidableEq ε] [DecidableEq α] :
    DecidableEq (Except ε α)
  | .ok a, .ok b => decidable_of_iff (a = b) (by simp)
  | .ok _, .error _ => isFalse (by simp)
  | .error _, .ok _ => isFalse (by simp)
  | .error a, .error b => decidable_of_iff (a = b) (by simp)

/-- Ghost trace events: one per dispatcher stage invocation.  Events carry
the arguments relevant to the claims (the `HandleOpts` given to the static
resolver, the status and page paths given to the error renderer, the
resolved path handed to the custom-headers stage). -/
inductive Ev where
  | health
  | logEmit
  | methodCheck
  | errorRender (status : Nat) (page404 : String) (page50x : String)
  | metricsCheck
  | corsPre
  | basicAuth
  | maintenance
  | redirects
  | rewrites
  | vhost
  | staticFiles (hopts : HandleOpts) (outcome : Except Nat String)
  | fallbackPage
  | corsPost
  | compressionStaticPost
  | compressionPost
  | controlHeadersPost
  | securityHeadersPost
  | customHeadersPost (file_path : Option String)
deriving DecidableEq, Repr

/-- The data-erased stage kind of an event. -/
inductive EvKind where
  | health | logEmit | methodCheck | errorRender | metricsCheck | corsPre
  | basicAuth | maintenance | redirects | rewrites | vhost | staticFiles
  | fallbackPage | corsPost | compressionStaticPost | compressionPost
  | controlHeadersPost | securityHeadersPost | customHeadersPost
deriving DecidableEq, Repr

/-- Erase an event to its stage kind. -/
def Ev.kind : Ev → EvKind
  | .health => .health
  | .logEmit => .logEmit
  | .methodCheck => .methodCheck
  | .errorRender _ _ _ => .errorRender
  | .metricsCheck => .metricsCheck
  | .corsPre => .corsPre
  | .basicAuth => .basicAuth
  | .maintenance => .maintenance
  | .redirects => .redirects
  | .rewrites => .rewrites
  | .vhost => .vhost
  | .staticFiles _ _ => .staticFiles
  | .fallbackPage => .fallbackPage
  | .corsPost => .corsPost
  | .compressionStaticPost => .compressionStaticPost
  | .compressionPost => .compressionPost
  | .controlHeadersPost => .controlHeadersPost
  | .securityHeadersPost => .securityHeadersPost
  | .customHeadersPost _ => .customHeadersPost

/-- Is the event one of the ten pre-filter-half stages (claim C3's list)? -/
def Ev.isPre : Ev → Bool
  | .health | .logEmit | .methodCheck | .metricsCheck | .corsPre
  | .basicAuth | .maintenance | .redirects | .rewrites | .vhost => true
  | _ => false

/-- Is the event one of the seven post-transform stages? -/
def Ev.isPost : Ev → Bool
  | .fallbackPage | .corsPost | .compressionStaticPost | .compressionPost
  | .controlHeadersPost | .securityHeadersPost | .customHeadersPost _ => true
  | _ => false

/-- Is the event an invocation of the static resolver? -/
def Ev.isStatic : Ev → Bool
  | .staticFiles _ _ => true
  | _ => false

/-- The full pre-filter-half trace, in dispatcher order. -/
def preEvList : List Ev :=
  [Ev.health, Ev.logEmit, Ev.methodCheck, Ev.metricsCheck, Ev.corsPre,
   Ev.basicAuth, Ev.maintenance, Ev.redirects, Ev.rewrites, Ev.vhost]

/-- The seven post-transform events in dispatcher order, with the resolved
file path handed to the final (custom-headers) stage. -/
def postTrace (fp : Option String) : List Ev :=
  [Ev.fallbackPage, Ev.corsPost, Ev.compressionStaticPost, Ev.compressionPost,
   Ev.controlHeadersPost, Ev.securityHeadersPost, Ev.customHeadersPost fp]

/-- Lines 286-322: the post-transform half of the pipeline.  Each stage is
`let resp = stage::post_process(...)?` in the source: a failing stage
aborts the chain with a fatal error. -/
def postChain (ext : Ext) (opts : RequestHandlerOpts) (req : Request)
    (resp0 : Response) (file_path : Option String) (tr0 : List Ev) :
    RespResult × List Ev :=
  match ext.fallback_post opts req resp0 with
  | .error e => (.error e, tr0 ++ [Ev.fallbackPage])
  | .ok resp1 =>
    match ext.cors_post opts req resp1 with
    | .error e => (.error e, tr0 ++ [Ev.fallbackPage, Ev.corsPost])
    | .ok resp2 =>
      match ext.compression_static_post opts req resp2 with
      | .error e =>
        (.error e, tr0 ++ [Ev.fallbackPage, Ev.corsPost, Ev.compressionStaticPost])
      | .ok resp3 =>
        match ext.compression_post opts req resp3 with
        | .error e =>
          (.error e, tr0 ++ [Ev.fallbackPage, Ev.corsPost,
            Ev.compressionStaticPost, Ev.compressionPost])
        | .ok resp4 =>
          match ext.control_headers_post opts req resp4 with
          | .error e =>
            (.error e, tr0 ++ [Ev.fallbackPage, Ev.corsPost,
              Ev.compressionStaticPost, Ev.compressionPost, Ev.controlHeadersPost])
          | .ok resp5 =>
            match ext.security_headers_post opts req resp5 with
            | .error e =>
              (.error e, tr0 ++ [Ev.fallbackPage, Ev.corsPost,
                Ev.compressionStaticPost, Ev.compressionPost,
                Ev.controlHeadersPost, Ev.securityHeadersPost])
            | .ok resp6 =>
              match ext.custom_headers_post opts req resp6 file_path with
              | .error e =>
                (.error e, tr0 ++ [Ev.fallbackPage, Ev.corsPost,
                  Ev.compressionStaticPost, Ev.compressionPost,
                  Ev.controlHeadersPost, Ev.securityHeadersPost,
                  Ev.customHeadersPost file_path])
              | .ok resp7 =>
                (.ok resp7, tr0 ++ [Ev.fallbackPage, Ev.corsPost,
                  Ev.compressionStaticPost, Ev.compressionPost,
                  Ev.controlHeadersPost, Ev.securityHeadersPost,
                  Ev.customHeadersPost file_path])

/-- `RequestHandler::handle` (lines 149-324), with a ghost trace of the
stages invoked.  Mirrors the source: health probe first (pre-log), the
structured log line, the method allow-list rejection rendered by the error
renderer, then the short-circuiting pre-filters in order, virtual-host
base-path override, static resolution (failure rendered by the error
renderer), and the seven-stage post-transform chain. -/
def handleT (ext : Ext) (opts : RequestHandlerOpts) (req0 : Request)
    (remote_addr : Option String) : RespResult × List Ev :=
  let ras := remote_addr_str ext opts req0 remote_addr
  match ext.health_pre opts req0 ras with
  | some result => (result, [Ev.health])
  | none =>
    -- tracing::info!: log emission, no effect on the result
    if ext.is_allowed req0.method = false then
      (ext.error_response req0.uriPath req0.method 405 opts.page404 opts.page50x,
       [Ev.health, Ev.logEmit, Ev.methodCheck,
        Ev.errorRender 405 opts.page404 opts.page50x])
    else
      match ext.metrics_pre opts req0 with
      | some result =>
        (result, [Ev.health, Ev.logEmit, Ev.methodCheck, Ev.metricsCheck])
      | none =>
        match ext.cors_pre opts req0 with
        | some result =>
          (result, [Ev.health, Ev.logEmit, Ev.methodCheck, Ev.metricsCheck,
            Ev.corsPre])
        | none =>
          match ext.basic_auth_pre opts req0 with
          | some response =>
            (response, [Ev.health, Ev.logEmit, Ev.methodCheck, Ev.metricsCheck,
              Ev.corsPre, Ev.basicAuth])
          | none =>
            match ext.maintenance_pre opts req0 with
            | some response =>
              (response, [Ev.health, Ev.logEmit, Ev.methodCheck,
                Ev.metricsCheck, Ev.corsPre, Ev.basicAuth, Ev.maintenance])
            | none =>
              match ext.redirects_pre opts req0 with
              | some result =>
                (result, [Ev.health, Ev.logEmit, Ev.methodCheck,
                  Ev.metricsCheck, Ev.corsPre, Ev.basicAuth, Ev.maintenance,
                  Ev.redirects])
              | none =>
                match ext.rewrites_pre opts req0 with
                | (some result, _) =>
                  (result, [Ev.health, Ev.logEmit, Ev.methodCheck,
                    Ev.metricsCheck, Ev.corsPre, Ev.basicAuth, Ev.maintenance,
                    Ev.redirects, Ev.rewrites])
                | (none, req) =>
                  let base_path := vhostBase ext opts req
                  let hopts := mkHandleOpts opts req base_path
                  match ext.static_handle hopts with
                  | .ok result =>
                    postChain ext opts req result.resp (some result.file_path)
                      (preEvList ++ [Ev.staticFiles hopts (.ok result.file_path)])
                  | .error status =>
                    match ext.error_response req.uriPath req.method status
                        opts.page404 opts.page50x with
                    | .ok resp =>
                      postChain ext opts req resp none
                        (preEvList ++ [Ev.staticFiles hopts (.error status),
                          Ev.errorRender status opts.page404 opts.page50x])
                    | .error e =>
                      (.error e,
                       preEvList ++ [Ev.staticFiles hopts (.error status),
                         Ev.errorRender status opts.page404 opts.page50x])

/-- The terminal outputs the pre-filter half can produce: the health probe
response, the 405 rendering, and the metrics / CORS-preflight / basic-auth /
maintenance / redirect / rewrite short-circuit responses. -/
def preOutputs (ext : Ext) (opts : RequestHandlerOpts) (req0 : Request)
    (ras : String) : List RespResult :=
  (ext.health_pre opts req0 ras).toList ++
  [ext.error_response req0.uriPath req0.method 405 opts.page404 opts.page50x] ++
  (ext.metrics_pre opts req0).toList ++
  (ext.cors_pre opts req0).toList ++
  (ext.basic_auth_pre opts req0).toList ++
  (ext.maintenance_pre opts req0).toList ++
  (ext.redirects_pre opts req0).toList ++
  ((ext.rewrites_pre opts req0).1).toList

/-- Modelled from the spec: `error_page::error_response` (module
`error_page` is not under src/).  §4.2: a client-error status renders with
the 404 page's content if readable, a server-error status with the 50x
page's; on a missing or unreadable page file a minimal synthetic body is
used; the response carries the same status code; the renderer never fails.
The filesystem is abstracted as `fs : String → Option String`. -/
def error_response_model (fs : String → Option String)
    (uri method : String) (status : Nat) (page404 page50x : String) :
    RespResult :=
  let _ := uri
  let _ := method
  let page := if 400 ≤ status ∧ status < 500 then page404 else page50x
  .ok { status := status, headers := [],
        body := (fs page).getD (toString status) }

/-- Modelled from the spec: `maintenance_mode::pre_process` (module
`maintenance_mode` is not under src/).  §4.1 stage 7: if maintenance mode
is enabled it short-circuits every request with the configured status and
the configured maintenance page; otherwise it signals continue. -/
def maintenance_pre_model (fs : String → Option String)
    (opts : RequestHandlerOpts) (req : Request) : Option RespResult :=
  let _ := req
  if opts.maintenance_mode then
    some (.ok { status := opts.maintenance_mode_status, headers := [],
                body := (fs opts.maintenance_mode_file).getD "" })
  else none

/-- Fixture filesystem: only a 404 page file exists. -/
def fsW : String → Option String := fun p =>
  if p = "/404.html" then some "notfound-page" else none

/-- Fixture request. -/
def reqW : Request := { method := "GET", uriPath := "/a", uriQuery := none, headers := [] }

/-- Fixture request with a method outside the allow-list of `extW`. -/
def reqBad : Request := { method := "TRACE", uriPath := "/a", uriQuery := none, headers := [] }

/-- Fixture response. -/
def respW : Response := { status := 200, headers := [], body := "body" }

/-- Fixture configuration. -/
def optsW : RequestHandlerOpts :=
  { root_dir := "/public"
    compression := true
    compression_static := false
    dir_listing := false
    dir_listing_order := 6
    dir_listing_format := DirListFmt.Html
    cors := none
    security_headers := false
    cache_control_headers := true
    page404 := "/404.html"
    page50x := "/50x.html"
    page_fallback := []
    basic_auth := ""
    index_files := ["index.html"]
    log_remote_address := false
    redirect_trailing_slash := true
    ignore_hidden_files := false
    health := false
    experimental_metrics := false
    maintenance_mode := false
    maintenance_mode_status := 503
    maintenance_mode_file := "/maint.html"
    advanced_opts := none }

/-- Fixture collaborators: every pre-filter continues, static resolution
succeeds, every post-transform is the identity. -/
def extW : Ext :=
  { is_allowed := fun m => m == "GET" || m == "HEAD" || m == "OPTIONS"
    health_pre := fun _ _ _ => none
    metrics_pre := fun _ _ => none
    cors_pre := fun _ _ => none
    basic_auth_pre := fun _ _ => none
    maintenance_pre := fun _ _ => none
    redirects_pre := fun _ _ => none
    rewrites_pre := fun _ r => (none, r)
    get_real_root := fun _ _ => none
    static_handle := fun _ => .ok { resp := respW, file_path := "/public/a" }
    error_response := error_response_model fsW
    fallback_post := fun _ _ r => .ok r
    cors_post := fun _ _ r => .ok r
    compression_static_post := fun _ _ r => .ok r
    compression_post := fun _ _ r => .ok r
    control_headers_post := fun _ _ r => .ok r
    security_headers_post := fun _ _ r => .ok r
    custom_headers_post := fun _ _ r _ => .ok r
    ip_parse := fun s => if s = "1.2.3.4" then some "1.2.3.4" else none }

/-- Fixture: the health probe answers. -/
def extHealth : Ext := { extW with health_pre := fun _ _ _ => some (.ok respW) }

/-- Fixture: maintenance mode as modelled from the spec. -/
def extMaint : Ext := { extW with maintenance_pre := maintenance_pre_model fsW }

/-- Fixture configuration with maintenance mode enabled. -/
def optsMaint : RequestHandlerOpts := { optsW with maintenance_mode := true }

/-- Fixture: the CORS post-transform stage fails. -/
def extPostFail : Ext := { extW with cors_post := fun _ _ _ => .error "bad header" }

/-- Fixture: static resolution fails with 404. -/
def extStaticFail : Ext := { extW with static_handle := fun _ => .error 404 }

/-- Fixture: the rewrite stage matches and returns a terminal response. -/
def extRewrite : Ext := { extW with rewrites_pre := fun _ r => (some (.ok respW), r) }

/-- Fixture: a virtual-host table that matches. -/
def advW : Advanced := Advanced.mk (some [VirtualHost.mk "h.example" "/vroot"])

def optsVhost : RequestHandlerOpts := { optsW with advanced_opts := some advW }

/-- Fixture: the virtual-host lookup matches and yields `/vroot`. -/
def extVhost : Ext := { extW with get_real_root := fun _ _ => some "/vroot" }

/-- Fixture configuration with remote-address logging enabled. -/
def optsLog : RequestHandlerOpts := { optsW with log_remote_address := true }

/-- Fixture request carrying an `X-Forwarded-For` header parsing to an IP. -/
def reqXff : Request :=
  { method := "GET", uriPath := "/a", uriQuery := none,
    headers := [("X-Forwarded-For", "1.2.3.4, 9.9.9.9")] }

/- ### Helper lemmas about the post-transform chain -/

/-- The post chain only appends events: its trace is the input trace
followed by a non-empty prefix of the seven post events in order. -/
theorem postChain_trace (ext : Ext) (opts : RequestHandlerOpts) (req : Request)
    (resp0 : Response) (fp : Option String) (tr0 : List Ev) :
    ∃ k, 1 ≤ k ∧ (postChain ext opts req resp0 fp tr0).2 = tr0 ++ (postTrace fp).take k := by
  unfold postChain
  split
  · exact ⟨1, by simp [postTrace]⟩
  split
  · exact ⟨2, by simp [postTrace]⟩
  split
  · exact ⟨3, by simp [postTrace]⟩
  split
  · exact ⟨4, by simp [postTrace]⟩
  split
  · exact ⟨5, by simp [postTrace]⟩
  split
  · exact ⟨6, by simp [postTrace]⟩
  split
  · exact ⟨7, by simp [postTrace]⟩
  · exact ⟨7, by simp [postTrace]⟩

/-- If the post chain succeeds, its trace is the input trace followed by
the complete seven post events in order. -/
theorem postChain_ok_trace (ext : Ext) (opts : RequestHandlerOpts) (req : Request)
    (resp0 : Response) (fp : Option String) (tr0 : List Ev) (resp : Response)
    (tr : List Ev) (h : postChain ext opts req resp0 fp tr0 = (.ok resp, tr)) :
    tr = tr0 ++ postTrace fp := by
  unfold postChain at h
  repeat' split at h
  all_goals simp_all [postTrace]

/-- Every event of the post-event list is a post event and not a
pre-filter or static event. -/
theorem postTrace_flags (fp : Option String) :
    ∀ e ∈ postTrace fp, e.isPost = true ∧ e.isPre = false ∧ e.isStatic = false := by
  intro e he
  simp only [postTrace, List.mem_cons, List.mem_singleton, List.not_mem_nil, or_false] at he
  rcases he with h | h | h | h | h | h | h <;> subst h <;>
    simp [Ev.isPost, Ev.isPre, Ev.isStatic]

/-- If every pre-filter continues, the static resolver is invoked on the
request left by the rewrite stage with the virtual-host-resolved base
path: its event is in the trace whatever its outcome. -/
theorem static_invoked (ext : Ext) (opts : RequestHandlerOpts) (req0 : Request)
    (addr : Option String) (q : Request)
    (hH : ext.health_pre opts req0 (remote_addr_str ext opts req0 addr) = none)
    (hA : ext.is_allowed req0.method = true)
    (hMet : ext.metrics_pre opts req0 = none)
    (hC : ext.cors_pre opts req0 = none)
    (hB : ext.basic_auth_pre opts req0 = none)
    (hMaint : ext.maintenance_pre opts req0 = none)
    (hRed : ext.redirects_pre opts req0 = none)
    (hRew : ext.rewrites_pre opts req0 = (none, q)) :
    ∃ out, Ev.staticFiles (mkHandleOpts opts q (vhostBase ext opts q)) out ∈
      (handleT ext opts req0 addr).2 := by
  cases hs : ext.static_handle (mkHandleOpts opts q (vhostBase ext opts q)) with
  | ok r =>
    obtain ⟨k, _, hk⟩ := postChain_trace ext opts q r.resp (some r.file_path)
      (preEvList ++ [Ev.staticFiles (mkHandleOpts opts q (vhostBase ext opts q))
        (.ok r.file_path)])
    refine ⟨.ok r.file_path, ?_⟩
    simp [handleT, hH, hA, hMet, hC, hB, hMaint, hRed, hRew, hs, hk]
  | error status =>
    cases he : ext.error_response q.uriPath q.method status opts.page404 opts.page50x with
    | ok resp =>
      obtain ⟨k, _, hk⟩ := postChain_trace ext opts q resp none
        (preEvList ++ [Ev.staticFiles (mkHandleOpts opts q (vhostBase ext opts q))
          (.error status), Ev.errorRender status opts.page404 opts.page50x])
      refine ⟨.error status, ?_⟩
      simp [handleT, hH, hA, hMet, hC, hB, hMaint, hRed, hRew, hs, he, hk]
    | error e0 =>
      refine ⟨.error status, ?_⟩
      simp [handleT, hH, hA, hMet, hC, hB, hMaint, hRed, hRew, hs, he]

/-- A custom-headers event found in the post-event list carries exactly
the file path the chain was given. -/
theorem customHeaders_mem_postTrace (fp fp' : Option String)
    (h : Ev.customHeadersPost fp ∈ postTrace fp') : fp = fp' := by
  simpa [postTrace] using h

/-- The post-event list contains no custom-headers event for a different
file path, no static event, and no pre event; its post filter is itself. -/
theorem filter_isPost_postTrace (fp : Option String) :
    (postTrace fp).filter Ev.isPost = postTrace fp := by
  simp [postTrace, Ev.isPost]

/-- The pre-filter-half event list contains no post event. -/
theorem filter_isPost_preEvList : preEvList.filter Ev.isPost = [] := rfl

/-- If the post chain ends in a fatal error, one of the seven
post-transform stage functions produced exactly that error. -/
theorem postChain_error (ext : Ext) (opts : RequestHandlerOpts) (req : Request)
    (resp0 : Response) (fp : Option String) (tr0 : List Ev) (e : Err) (tr : List Ev)
    (h : postChain ext opts req resp0 fp tr0 = (.error e, tr)) :
    (∃ r, ext.fallback_post opts req r = .error e) ∨
    (∃ r, ext.cors_post opts req r = .error e) ∨
    (∃ r, ext.compression_static_post opts req r = .error e) ∨
    (∃ r, ext.compression_post opts req r = .error e) ∨
    (∃ r, ext.control_headers_post opts req r = .error e) ∨
    (∃ r, ext.security_headers_post opts req r = .error e) ∨
    (∃ r, ext.custom_headers_post opts req r fp = .error e) := by
  unfold postChain at h
  repeat' split at h
  all_goals injection h with h1 h2
  all_goals try exact Except.noConfusion h1
  all_goals injection h1 with h1e
  all_goals subst h1e
  all_goals first
    | exact Or.inl ⟨_, by assumption⟩
    | exact Or.inr (Or.inl ⟨_, by assumption⟩)
    | exact Or.inr (Or.inr (Or.inl ⟨_, by assumption⟩))
    | exact Or.inr (Or.inr (Or.inr (Or.inl ⟨_, by assumption⟩)))
    | exact Or.inr (Or.inr (Or.inr (Or.inr (Or.inl ⟨_, by assumption⟩))))
    | exact Or.inr (Or.inr (Or.inr (Or.inr (Or.inr (Or.inl ⟨_, by assumption⟩)))))
    | exact Or.inr (Or.inr (Or.inr (Or.inr (Or.inr (Or.inr ⟨_, by assumption⟩)))))

/-- Whatever the post chain does, the stage kinds of its trace stay
duplicate-free provided they would be for the complete chain. -/
theorem postChain_kind_nodup (ext : Ext) (opts : RequestHandlerOpts) (req : Request)
    (resp0 : Response) (fp : Option String) (tr0 : List Ev)
    (h : ((tr0 ++ postTrace fp).map Ev.kind).Nodup) :
    (((postChain ext opts req resp0 fp tr0).2).map Ev.kind).Nodup := by
  obtain ⟨k, _, hk⟩ := postChain_trace ext opts req resp0 fp tr0
  rw [hk]
  refine h.sublist (List.Sublist.map Ev.kind ?_)
  exact (List.take_sublist k (postTrace fp)).append_left tr0

/-- A static-resolver event cannot occur in a list of non-static events. -/
theorem no_static_mem (l : List Ev) (hl : ∀ x ∈ l, x.isStatic = false)
    (h : HandleOpts) (out : Except Nat String)
    (hm : Ev.staticFiles h out ∈ l) : False := by
  have hx := hl _ hm
  simp [Ev.isStatic] at hx

/-- No pre-filter-half event is a static-resolver event. -/
theorem preEvList_no_static : ∀ x ∈ preEvList, x.isStatic = false := by decide

/-- No post-transform event is a static-resolver event. -/
theorem postTrace_no_static (fp : Option String) :
    ∀ x ∈ postTrace fp, x.isStatic = false :=
  fun e he => ((postTrace_flags fp e he).2).2

/-- In a success-path trace the only static event is the one recorded for
the static resolver's invocation. -/
theorem staticFiles_mem_okTrace (h : HandleOpts) (out : Except Nat String)
    (hopts : HandleOpts) (o : Except Nat String) (fp : Option String)
    (hm : Ev.staticFiles h out ∈ preEvList ++ [Ev.staticFiles hopts o] ++ postTrace fp) :
    h = hopts ∧ out = o := by
  rcases List.mem_append.mp hm with hm1 | hm1
  · rcases List.mem_append.mp hm1 with hm2 | hm2
    · exact (no_static_mem _ preEvList_no_static _ _ hm2).elim
    · rw [List.mem_singleton] at hm2
      injection hm2 with h1 h2
      exact ⟨h1, h2⟩
  · exact (no_static_mem _ (postTrace_no_static fp) _ _ hm1).elim

/-- In an error-path trace the only static event is the one recorded for
the static resolver's invocation. -/
theorem staticFiles_mem_errTrace (h : HandleOpts) (out : Except Nat String)
    (hopts : HandleOpts) (o : Except Nat String) (st : Nat)
    (p404 p50x : String) (fp : Option String)
    (hm : Ev.staticFiles h out ∈
      preEvList ++ [Ev.staticFiles hopts o, Ev.errorRender st p404 p50x] ++ postTrace fp) :
    h = hopts ∧ out = o := by
  rcases List.mem_append.mp hm with hm1 | hm1
  · rcases List.mem_append.mp hm1 with hm2 | hm2
    · exact (no_static_mem _ preEvList_no_static _ _ hm2).elim
    · rcases List.mem_cons.mp hm2 with hm3 | hm3
      · injection hm3 with h1 h2
        exact ⟨h1, h2⟩
      · rw [List.mem_singleton] at hm3
        exact Ev.noConfusion hm3
  · exact (no_static_mem _ (postTrace_no_static fp) _ _ hm1).elim

/-- A custom-headers event cannot occur in a list of non-post events. -/
theorem no_custom_mem (l : List Ev) (hl : ∀ x ∈ l, x.isPost = false)
    (fp : Option String) (hm : Ev.customHeadersPost fp ∈ l) : False := by
  have hx := hl _ hm
  simp [Ev.isPost] at hx

/-- No pre-filter-half event is a post event. -/
theorem preEvList_no_post : ∀ x ∈ preEvList, x.isPost = false := by decide

/-- The success-path prefix (pre stages plus the static event) holds no
post event. -/
theorem okTr0_no_post (hopts : HandleOpts) (o : Except Nat String) :
    ∀ x ∈ preEvList ++ [Ev.staticFiles hopts o], x.isPost = false := by
  intro x hx
  rcases List.mem_append.mp hx with hx1 | hx1
  · exact preEvList_no_post x hx1
  · rw [List.mem_singleton] at hx1
    subst hx1; rfl

/-- The error-path prefix (pre stages, static event, error-render event)
holds no post event. -/
theorem errTr0_no_post (hopts : HandleOpts) (o : Except Nat String)
    (st : Nat) (p404 p50x : String) :
    ∀ x ∈ preEvList ++ [Ev.staticFiles hopts o, Ev.errorRender st p404 p50x],
      x.isPost = false := by
  intro x hx
  rcases List.mem_append.mp hx with hx1 | hx1
  · exact preEvList_no_post x hx1
  · rcases List.mem_cons.mp hx1 with hx2 | hx2
    · subst hx2; rfl
    · rw [List.mem_singleton] at hx2
      subst hx2; rfl

/-- The post-chain half of the dispatch invariant: starting from a trace
that already contains a static event and no post event, the final trace
keeps a static event, and if the result is a response the post filter of
the final trace is the complete seven-stage list. -/
theorem postChain_invariant_B (ext : Ext) (opts : RequestHandlerOpts)
    (req : Request) (resp0 : Response) (fp : Option String) (tr0 : List Ev)
    (res : RespResult) (tr : List Ev)
    (hT : postChain ext opts req resp0 fp tr0 = (res, tr))
    (hs : tr0.filter Ev.isStatic ≠ [])
    (hp : tr0.filter Ev.isPost = []) :
    tr.filter Ev.isStatic ≠ [] ∧
    ∀ resp, res = Except.ok resp → ∃ fp2, tr.filter Ev.isPost = postTrace fp2 := by
  constructor
  · obtain ⟨k, _, hk⟩ := postChain_trace ext opts req resp0 fp tr0
    rw [hT] at hk
    rw [show tr = tr0 ++ List.take k (postTrace fp) from hk, List.filter_append]
    intro hcon
    exact hs (List.append_eq_nil.mp hcon).1
  · intro resp hres
    subst hres
    have hk := postChain_ok_trace _ _ _ _ _ _ _ _ hT
    subst hk
    exact ⟨fp, by rw [List.filter_append, hp, filter_isPost_postTrace, List.nil_append]⟩

/- ### Claim theorems -/

/-- C1: every response reaches the caller through exactly one of two
mutually exclusive paths: a pre-filter terminal response with no static
resolution and zero post-transforms, or a static-resolution outcome whose
trace contains the static event and, whenever a response is produced, the
complete seven-stage post-transform chain. -/
theorem handle_dispatch_invariant (ext : Ext) (opts : RequestHandlerOpts)
    (req0 : Request) (addr : Option String) :
    ∀ res tr, handleT ext opts req0 addr = (res, tr) →
      Xor'
        (tr.filter Ev.isStatic = [] ∧ tr.filter Ev.isPost = [] ∧
         res ∈ preOutputs ext opts req0 (remote_addr_str ext opts req0 addr))
        (tr.filter Ev.isStatic ≠ [] ∧
         ∀ resp, res = Except.ok resp →
           ∃ fp, tr.filter Ev.isPost = postTrace fp) := by
  intro res tr hT
  simp only [handleT] at hT
  repeat' split at hT
  -- pre-filter terminal branches
  case _ =>
    injection hT with h1 h2; subst h1; subst h2
    exact Or.inl ⟨⟨rfl, rfl, by simp_all [preOutputs]⟩, fun hb => hb.1 rfl⟩
  case _ =>
    injection hT with h1 h2; subst h1; subst h2
    exact Or.inl ⟨⟨rfl, rfl, by simp_all [preOutputs]⟩, fun hb => hb.1 rfl⟩
  case _ =>
    injection hT with h1 h2; subst h1; subst h2
    exact Or.inl ⟨⟨rfl, rfl, by simp_all [preOutputs]⟩, fun hb => hb.1 rfl⟩
  case _ =>
    injection hT with h1 h2; subst h1; subst h2
    exact Or.inl ⟨⟨rfl, rfl, by simp_all [preOutputs]⟩, fun hb => hb.1 rfl⟩
  case _ =>
    injection hT with h1 h2; subst h1; subst h2
    exact Or.inl ⟨⟨rfl, rfl, by simp_all [preOutputs]⟩, fun hb => hb.1 rfl⟩
  case _ =>
    injection hT with h1 h2; subst h1; subst h2
    exact Or.inl ⟨⟨rfl, rfl, by simp_all [preOutputs]⟩, fun hb => hb.1 rfl⟩
  case _ =>
    injection hT with h1 h2; subst h1; subst h2
    exact Or.inl ⟨⟨rfl, rfl, by simp_all [preOutputs]⟩, fun hb => hb.1 rfl⟩
  case _ =>
    injection hT with h1 h2; subst h1; subst h2
    exact Or.inl ⟨⟨rfl, rfl, by simp_all [preOutputs]⟩, fun hb => hb.1 rfl⟩
  -- static resolution succeeded
  case _ =>
    have hB := postChain_invariant_B _ _ _ _ _ _ _ _ hT
      (by simp [preEvList, Ev.isStatic]) (by simp [preEvList, Ev.isPost])
    exact Or.inr ⟨hB, fun hA => hB.1 hA.1⟩
  -- static resolution failed and the error renderer produced a response
  case _ =>
    have hB := postChain_invariant_B _ _ _ _ _ _ _ _ hT
      (by simp [preEvList, Ev.isStatic]) (by simp [preEvList, Ev.isPost])
    exact Or.inr ⟨hB, fun hA => hB.1 hA.1⟩
  -- static resolution failed and the error renderer failed
  case _ =>
    injection hT with h1 h2; subst h1; subst h2
    refine Or.inr ⟨⟨by simp [preEvList, Ev.isStatic], ?_⟩, ?_⟩
    · intro resp h
      exact Except.noConfusion h
    · intro hA
      have := hA.1
      simp [preEvList, Ev.isStatic] at this

/-- Witness for C1: on the fixture the static-resolution path is taken
with the full post-transform chain. -/
theorem handle_dispatch_invariant_w :
    Xor'
      ((handleT extW optsW reqW none).2.filter Ev.isStatic = [] ∧
       (handleT extW optsW reqW none).2.filter Ev.isPost = [] ∧
       (handleT extW optsW reqW none).1 ∈
         preOutputs extW optsW reqW (remote_addr_str extW optsW reqW none))
      ((handleT extW optsW reqW none).2.filter Ev.isStatic ≠ [] ∧
       ∀ resp, (handleT extW optsW reqW none).1 = Except.ok resp →
         ∃ fp, (handleT extW optsW reqW none).2.filter Ev.isPost = postTrace fp) :=
  handle_dispatch_invariant extW optsW reqW none _ _ rfl

/-- C6: under the collaborator contracts (pre-filters and the error
renderer never fail), pre-filter and resolution failures are recovered
into responses and a fatal error can only originate in one of the seven
post-transform stages; moreover no stage kind ever appears twice in a
trace (no retries, no re-application). -/
theorem error_propagation_policy (ext : Ext) (opts : RequestHandlerOpts)
    (req0 : Request) (addr : Option String)
    (hH : ∀ e, ext.health_pre opts req0 (remote_addr_str ext opts req0 addr) ≠
      some (Except.error e))
    (hMet : ∀ e, ext.metrics_pre opts req0 ≠ some (Except.error e))
    (hC : ∀ e, ext.cors_pre opts req0 ≠ some (Except.error e))
    (hB : ∀ e, ext.basic_auth_pre opts req0 ≠ some (Except.error e))
    (hMaint : ∀ e, ext.maintenance_pre opts req0 ≠ some (Except.error e))
    (hRed : ∀ e, ext.redirects_pre opts req0 ≠ some (Except.error e))
    (hRew : ∀ e q, ext.rewrites_pre opts req0 ≠ (some (Except.error e), q))
    (hErr : ∀ uri m st e,
      ext.error_response uri m st opts.page404 opts.page50x ≠ Except.error e) :
    ∀ res tr, handleT ext opts req0 addr = (res, tr) →
      ((tr.map Ev.kind).Nodup ∧
       ∀ e, res = Except.error e →
         ((∃ q r, ext.fallback_post opts q r = Except.error e) ∨
          (∃ q r, ext.cors_post opts q r = Except.error e) ∨
          (∃ q r, ext.compression_static_post opts q r = Except.error e) ∨
          (∃ q r, ext.compression_post opts q r = Except.error e) ∨
          (∃ q r, ext.control_headers_post opts q r = Except.error e) ∨
          (∃ q r, ext.security_headers_post opts q r = Except.error e) ∨
          (∃ q r fp, ext.custom_headers_post opts q r fp = Except.error e))) := by
  intro res tr hT
  simp only [handleT] at hT
  repeat' split at hT
  all_goals first
    | -- branches where the result is a pair literal (pre-filter terminal
      -- branches and the double-failure branch)
      (injection hT with h1 h2; subst h1; subst h2
       refine ⟨?_, ?_⟩
       · simp only [preEvList, List.map_append, List.map_cons, List.map_nil,
           Ev.kind]
         decide
       · intro e he
         first
         | (subst he
            first
            | exact absurd (by assumption) (hH _)
            | exact absurd (by assumption) (hMet _)
            | exact absurd (by assumption) (hC _)
            | exact absurd (by assumption) (hB _)
            | exact absurd (by assumption) (hMaint _)
            | exact absurd (by assumption) (hRed _)
            | exact absurd (by assumption) (hRew _ _))
         | exact absurd (by assumption) (hErr _ _ _ _))
    | -- branches ending in the post-transform chain
      (refine ⟨?_, ?_⟩
       · show ((Prod.snd (res, tr)).map Ev.kind).Nodup
         rw [← hT]
         refine postChain_kind_nodup _ _ _ _ _ _ ?_
         simp only [preEvList, postTrace, List.map_append, List.map_cons,
           List.map_nil, Ev.kind]
         decide
       · intro e he
         rw [he] at hT
         rcases postChain_error _ _ _ _ _ _ _ _ hT with h | h | h | h | h | h | h
         · obtain ⟨r, hr⟩ := h; exact Or.inl ⟨_, _, hr⟩
         · obtain ⟨r, hr⟩ := h; exact Or.inr (Or.inl ⟨_, _, hr⟩)
         · obtain ⟨r, hr⟩ := h; exact Or.inr (Or.inr (Or.inl ⟨_, _, hr⟩))
         · obtain ⟨r, hr⟩ := h; exact Or.inr (Or.inr (Or.inr (Or.inl ⟨_, _, hr⟩)))
         · obtain ⟨r, hr⟩ := h
           exact Or.inr (Or.inr (Or.inr (Or.inr (Or.inl ⟨_, _, hr⟩))))
         · obtain ⟨r, hr⟩ := h
           exact Or.inr (Or.inr (Or.inr (Or.inr (Or.inr (Or.inl ⟨_, _, hr⟩)))))
         · obtain ⟨r, hr⟩ := h
           exact Or.inr (Or.inr (Or.inr (Or.inr (Or.inr (Or.inr ⟨_, _, _, hr⟩))))))

/-- Witness for C6: on the fixture the trace's stage kinds are
duplicate-free. -/
theorem error_propagation_policy_w :
    ((handleT extW optsW reqW none).2.map Ev.kind).Nodup :=
  (error_propagation_policy extW optsW reqW none
    (fun e h => by simp [extW] at h)
    (fun e h => by simp [extW] at h)
    (fun e h => by simp [extW] at h)
    (fun e h => by simp [extW] at h)
    (fun e h => by simp [extW] at h)
    (fun e h => by simp [extW] at h)
    (fun e q h => by simp [extW] at h)
    (fun uri m st e h => by simp [extW, error_response_model] at h)
    _ _ rfl).1

/-- C7: when static resolution fails with a status, the dispatcher renders
that status through the error renderer with the configured 404/50x page
paths and the resolved file path stays absent — the custom-headers stage
receives `none`; when static resolution succeeds, the custom-headers stage
receives exactly the resolved path. -/
theorem static_failure_error_render_no_path (ext : Ext)
    (opts : RequestHandlerOpts) (req0 : Request) (addr : Option String)
    (q : Request)
    (hH : ext.health_pre opts req0 (remote_addr_str ext opts req0 addr) = none)
    (hA : ext.is_allowed req0.method = true)
    (hMet : ext.metrics_pre opts req0 = none)
    (hC : ext.cors_pre opts req0 = none)
    (hB : ext.basic_auth_pre opts req0 = none)
    (hMaint : ext.maintenance_pre opts req0 = none)
    (hRed : ext.redirects_pre opts req0 = none)
    (hRew : ext.rewrites_pre opts req0 = (none, q)) :
    (∀ st, ext.static_handle (mkHandleOpts opts q (vhostBase ext opts q)) =
        Except.error st →
      Ev.errorRender st opts.page404 opts.page50x ∈ (handleT ext opts req0 addr).2 ∧
      ∀ fp, Ev.customHeadersPost fp ∈ (handleT ext opts req0 addr).2 → fp = none) ∧
    (∀ r, ext.static_handle (mkHandleOpts opts q (vhostBase ext opts q)) =
        Except.ok r →
      ∀ fp, Ev.customHeadersPost fp ∈ (handleT ext opts req0 addr).2 →
        fp = some r.file_path) := by
  constructor
  · intro st hst
    cases he : ext.error_response q.uriPath q.method st opts.page404 opts.page50x with
    | ok resp =>
      obtain ⟨k, _, hk⟩ := postChain_trace ext opts q resp none
        (preEvList ++ [Ev.staticFiles (mkHandleOpts opts q (vhostBase ext opts q))
          (.error st), Ev.errorRender st opts.page404 opts.page50x])
      have h2 : (handleT ext opts req0 addr).2 =
          preEvList ++ [Ev.staticFiles (mkHandleOpts opts q (vhostBase ext opts q))
            (.error st), Ev.errorRender st opts.page404 opts.page50x] ++
          (postTrace none).take k := by
        simp [handleT, hH, hA, hMet, hC, hB, hMaint, hRed, hRew, hst, he, hk]
      constructor
      · rw [h2]; simp
      · intro fp hfp
        rw [h2] at hfp
        rcases List.mem_append.mp hfp with hfp1 | hfp1
        · exact (no_custom_mem _ (errTr0_no_post _ _ _ _ _) _ hfp1).elim
        · exact customHeaders_mem_postTrace _ _ (List.mem_of_mem_take hfp1)
    | error e0 =>
      have h2 : (handleT ext opts req0 addr).2 =
          preEvList ++ [Ev.staticFiles (mkHandleOpts opts q (vhostBase ext opts q))
            (.error st), Ev.errorRender st opts.page404 opts.page50x] := by
        simp [handleT, hH, hA, hMet, hC, hB, hMaint, hRed, hRew, hst, he]
      constructor
      · rw [h2]; simp
      · intro fp hfp
        rw [h2] at hfp
        exact (no_custom_mem _ (errTr0_no_post _ _ _ _ _) _ hfp).elim
  · intro r hr fp hfp
    obtain ⟨k, _, hk⟩ := postChain_trace ext opts q r.resp (some r.file_path)
      (preEvList ++ [Ev.staticFiles (mkHandleOpts opts q (vhostBase ext opts q))
        (.ok r.file_path)])
    have h2 : (handleT ext opts req0 addr).2 =
        preEvList ++ [Ev.staticFiles (mkHandleOpts opts q (vhostBase ext opts q))
          (.ok r.file_path)] ++ (postTrace (some r.file_path)).take k := by
      simp [handleT, hH, hA, hMet, hC, hB, hMaint, hRed, hRew, hr, hk]
    rw [h2] at hfp
    rcases List.mem_append.mp hfp with hfp1 | hfp1
    · exact (no_custom_mem _ (okTr0_no_post _ _) _ hfp1).elim
    · exact customHeaders_mem_postTrace _ _ (List.mem_of_mem_take hfp1)

/-- Witness for C7: on the fixture's 404 static failure the rendered-error
event for status 404 with the configured page paths is in the trace. -/
theorem static_failure_error_render_no_path_w :
    Ev.errorRender 404 "/404.html" "/50x.html" ∈
      (handleT extStaticFail optsW reqW none).2 :=
  ((static_failure_error_render_no_path extStaticFail optsW reqW none reqW
      rfl (by decide) rfl rfl rfl rfl rfl rfl).1 404 rfl).1

/-- C4: a request whose method is not in the allowed set is answered with
status exactly 405, rendered by the error renderer through the
client-error (404-page) branch, and no post-transform stage runs on it. -/
theorem method_not_allowed_405 (ext : Ext) (opts : RequestHandlerOpts)
    (req0 : Request) (addr : Option String) (fs : String → Option String)
    (hH : ext.health_pre opts req0 (remote_addr_str ext opts req0 addr) = none)
    (hA : ext.is_allowed req0.method = false)
    (hE : ext.error_response = error_response_model fs) :
    handleT ext opts req0 addr =
      (Except.ok (Response.mk 405 [] ((fs opts.page404).getD (toString 405))),
       [Ev.health, Ev.logEmit, Ev.methodCheck,
        Ev.errorRender 405 opts.page404 opts.page50x]) ∧
    (handleT ext opts req0 addr).2.filter Ev.isPost = [] := by
  constructor
  · simp [handleT, hH, hA, hE, error_response_model]
  · simp [handleT, hH, hA, Ev.isPost]

/-- Witness for C4: a TRACE request is rejected with the rendered 404-page
body at status 405 and an empty post-transform trace. -/
theorem method_not_allowed_405_w :
    (handleT extW optsW reqBad none).2.filter Ev.isPost = [] :=
  (method_not_allowed_405 extW optsW reqBad none fsW rfl (by decide) rfl).2

/-- C5: with maintenance mode enabled (stage modelled from the spec), any
request reaching the maintenance check is answered with the configured
status and page, the static resolver is never invoked, and the outcome is
independent of the static resolver — regardless of the requested path. -/
theorem maintenance_mode_short_circuit (ext : Ext) (opts : RequestHandlerOpts)
    (req0 : Request) (addr : Option String) (fs : String → Option String)
    (hM : ext.maintenance_pre = maintenance_pre_model fs)
    (hOn : opts.maintenance_mode = true)
    (hH : ext.health_pre opts req0 (remote_addr_str ext opts req0 addr) = none)
    (hA : ext.is_allowed req0.method = true)
    (hMet : ext.metrics_pre opts req0 = none)
    (hC : ext.cors_pre opts req0 = none)
    (hB : ext.basic_auth_pre opts req0 = none) :
    handleT ext opts req0 addr =
      (Except.ok (Response.mk opts.maintenance_mode_status []
         ((fs opts.maintenance_mode_file).getD "")),
       [Ev.health, Ev.logEmit, Ev.methodCheck, Ev.metricsCheck, Ev.corsPre,
        Ev.basicAuth, Ev.maintenance]) ∧
    (handleT ext opts req0 addr).2.filter Ev.isStatic = [] ∧
    ∀ sh, handleT { ext with static_handle := sh } opts req0 addr =
      handleT ext opts req0 addr := by
  refine ⟨?_, ?_, ?_⟩
  · simp [handleT, hM, hH, hA, hMet, hC, hB, maintenance_pre_model, hOn]
  · simp [handleT, hM, hH, hA, hMet, hC, hB, maintenance_pre_model, hOn, Ev.isStatic]
  · intro sh
    simp [handleT, hM, hH, hA, hMet, hC, hB, maintenance_pre_model, hOn,
      remote_addr_str, xff_client_ip]

/-- Witness for C5: with maintenance mode on, the trace contains no
static-resolver invocation. -/
theorem maintenance_mode_short_circuit_w :
    (handleT extMaint optsMaint reqW none).2.filter Ev.isStatic = [] :=
  (maintenance_mode_short_circuit extMaint optsMaint reqW none fsW rfl rfl rfl
    (by decide) rfl rfl rfl).2.1

/-- C9: the rewrite stage is terminal on any match — the dispatcher
returns its result immediately, running no later stage — while on no
match processing continues into static resolution. -/
theorem rewrite_terminal_on_match (ext : Ext) (opts : RequestHandlerOpts)
    (req0 : Request) (addr : Option String)
    (hH : ext.health_pre opts req0 (remote_addr_str ext opts req0 addr) = none)
    (hA : ext.is_allowed req0.method = true)
    (hMet : ext.metrics_pre opts req0 = none)
    (hC : ext.cors_pre opts req0 = none)
    (hB : ext.basic_auth_pre opts req0 = none)
    (hMaint : ext.maintenance_pre opts req0 = none)
    (hRed : ext.redirects_pre opts req0 = none) :
    (∀ r q, ext.rewrites_pre opts req0 = (some r, q) →
       handleT ext opts req0 addr =
         (r, [Ev.health, Ev.logEmit, Ev.methodCheck, Ev.metricsCheck, Ev.corsPre,
              Ev.basicAuth, Ev.maintenance, Ev.redirects, Ev.rewrites])) ∧
    (∀ q, ext.rewrites_pre opts req0 = (none, q) →
       ∃ out, Ev.staticFiles (mkHandleOpts opts q (vhostBase ext opts q)) out ∈
         (handleT ext opts req0 addr).2) := by
  constructor
  · intro r q hRew
    simp [handleT, hH, hA, hMet, hC, hB, hMaint, hRed, hRew]
  · intro q hRew
    exact static_invoked ext opts req0 addr q hH hA hMet hC hB hMaint hRed hRew

/-- Witness for C9: a matching rewrite returns its response with exactly
the nine pre-filter-half stages up to the rewrite check in the trace. -/
theorem rewrite_terminal_on_match_w :
    handleT extRewrite optsW reqW none =
      (Except.ok respW,
       [Ev.health, Ev.logEmit, Ev.methodCheck, Ev.metricsCheck, Ev.corsPre,
        Ev.basicAuth, Ev.maintenance, Ev.redirects, Ev.rewrites]) :=
  (rewrite_terminal_on_match extRewrite optsW reqW none rfl (by decide) rfl rfl
    rfl rfl rfl).1 (Except.ok respW) reqW rfl

/-- C8: virtual-host resolution never terminates the request — static
resolution is always invoked after it — and it affects only the effective
base path: the request fields handed to the static resolver are those of
the request as left by the rewrite stage, and the base path is the matched
virtual-host root when the lookup matches, the configured root directory
otherwise. -/
theorem virtual_host_frame_effect (ext : Ext) (opts : RequestHandlerOpts)
    (req0 : Request) (addr : Option String) (q : Request)
    (hH : ext.health_pre opts req0 (remote_addr_str ext opts req0 addr) = none)
    (hA : ext.is_allowed req0.method = true)
    (hMet : ext.metrics_pre opts req0 = none)
    (hC : ext.cors_pre opts req0 = none)
    (hB : ext.basic_auth_pre opts req0 = none)
    (hMaint : ext.maintenance_pre opts req0 = none)
    (hRed : ext.redirects_pre opts req0 = none)
    (hRew : ext.rewrites_pre opts req0 = (none, q)) :
    (∃ out, Ev.staticFiles (mkHandleOpts opts q (vhostBase ext opts q)) out ∈
       (handleT ext opts req0 addr).2) ∧
    ((mkHandleOpts opts q (vhostBase ext opts q)).method = q.method ∧
     (mkHandleOpts opts q (vhostBase ext opts q)).headers = q.headers ∧
     (mkHandleOpts opts q (vhostBase ext opts q)).uri_path = q.uriPath ∧
     (mkHandleOpts opts q (vhostBase ext opts q)).uri_query = q.uriQuery) ∧
    (∀ adv, opts.advanced_opts = some adv →
       (∀ root, ext.get_real_root q.headers adv.virtual_hosts = some root →
          vhostBase ext opts q = root) ∧
       (ext.get_real_root q.headers adv.virtual_hosts = none →
          vhostBase ext opts q = opts.root_dir)) ∧
    (opts.advanced_opts = none → vhostBase ext opts q = opts.root_dir) := by
  refine ⟨static_invoked ext opts req0 addr q hH hA hMet hC hB hMaint hRed hRew,
    ⟨rfl, rfl, rfl, rfl⟩, ?_, ?_⟩
  · intro adv hadv
    constructor
    · intro root hroot
      simp [vhostBase, hadv, hroot]
    · intro hroot
      simp [vhostBase, hadv, hroot]
  · intro hadv
    simp [vhostBase, hadv]

/-- Witness for C8: with a matching virtual-host table the effective base
path is the matched root. -/
theorem virtual_host_frame_effect_w : vhostBase extVhost optsVhost reqW = "/vroot" :=
  ((virtual_host_frame_effect extVhost optsVhost reqW none reqW rfl (by decide)
    rfl rfl rfl rfl rfl rfl).2.2.1 advW rfl).1 "/vroot" rfl

/-- C3: the pre-filter stages are evaluated in the strict order
health-probe, log emission, method allow-list, metrics, CORS preflight,
basic auth, maintenance mode, redirects, rewrites, virtual-host
resolution; the first stage producing a terminal response ends processing
immediately, so no later pre-filter stage and no post-transform stage
runs. -/
theorem pre_filter_order_short_circuit (ext : Ext) (opts : RequestHandlerOpts)
    (req0 : Request) (addr : Option String) :
    (∀ r, ext.health_pre opts req0 (remote_addr_str ext opts req0 addr) = some r →
       handleT ext opts req0 addr = (r, [Ev.health])) ∧
    (ext.health_pre opts req0 (remote_addr_str ext opts req0 addr) = none →
     ext.is_allowed req0.method = false →
       handleT ext opts req0 addr =
         (ext.error_response req0.uriPath req0.method 405 opts.page404 opts.page50x,
          [Ev.health, Ev.logEmit, Ev.methodCheck,
           Ev.errorRender 405 opts.page404 opts.page50x])) ∧
    (ext.health_pre opts req0 (remote_addr_str ext opts req0 addr) = none →
     ext.is_allowed req0.method = true →
     ∀ r, ext.metrics_pre opts req0 = some r →
       handleT ext opts req0 addr =
         (r, [Ev.health, Ev.logEmit, Ev.methodCheck, Ev.metricsCheck])) ∧
    (ext.health_pre opts req0 (remote_addr_str ext opts req0 addr) = none →
     ext.is_allowed req0.method = true →
     ext.metrics_pre opts req0 = none →
     ∀ r, ext.cors_pre opts req0 = some r →
       handleT ext opts req0 addr =
         (r, [Ev.health, Ev.logEmit, Ev.methodCheck, Ev.metricsCheck, Ev.corsPre])) ∧
    (ext.health_pre opts req0 (remote_addr_str ext opts req0 addr) = none →
     ext.is_allowed req0.method = true →
     ext.metrics_pre opts req0 = none →
     ext.cors_pre opts req0 = none →
     ∀ r, ext.basic_auth_pre opts req0 = some r →
       handleT ext opts req0 addr =
         (r, [Ev.health, Ev.logEmit, Ev.methodCheck, Ev.metricsCheck, Ev.corsPre,
              Ev.basicAuth])) ∧
    (ext.health_pre opts req0 (remote_addr_str ext opts req0 addr) = none →
     ext.is_allowed req0.method = true →
     ext.metrics_pre opts req0 = none →
     ext.cors_pre opts req0 = none →
     ext.basic_auth_pre opts req0 = none →
     ∀ r, ext.maintenance_pre opts req0 = some r →
       handleT ext opts req0 addr =
         (r, [Ev.health, Ev.logEmit, Ev.methodCheck, Ev.metricsCheck, Ev.corsPre,
              Ev.basicAuth, Ev.maintenance])) ∧
    (ext.health_pre opts req0 (remote_addr_str ext opts req0 addr) = none →
     ext.is_allowed req0.method = true →
     ext.metrics_pre opts req0 = none →
     ext.cors_pre opts req0 = none →
     ext.basic_auth_pre opts req0 = none →
     ext.maintenance_pre opts req0 = none →
     ∀ r, ext.redirects_pre opts req0 = some r →
       handleT ext opts req0 addr =
         (r, [Ev.health, Ev.logEmit, Ev.methodCheck, Ev.metricsCheck, Ev.corsPre,
              Ev.basicAuth, Ev.maintenance, Ev.redirects])) ∧
    (ext.health_pre opts req0 (remote_addr_str ext opts req0 addr) = none →
     ext.is_allowed req0.method = true →
     ext.metrics_pre opts req0 = none →
     ext.cors_pre opts req0 = none →
     ext.basic_auth_pre opts req0 = none →
     ext.maintenance_pre opts req0 = none →
     ext.redirects_pre opts req0 = none →
     ∀ r q, ext.rewrites_pre opts req0 = (some r, q) →
       handleT ext opts req0 addr =
         (r, [Ev.health, Ev.logEmit, Ev.methodCheck, Ev.metricsCheck, Ev.corsPre,
              Ev.basicAuth, Ev.maintenance, Ev.redirects, Ev.rewrites])) ∧
    (ext.health_pre opts req0 (remote_addr_str ext opts req0 addr) = none →
     ext.is_allowed req0.method = true →
     ext.metrics_pre opts req0 = none →
     ext.cors_pre opts req0 = none →
     ext.basic_auth_pre opts req0 = none →
     ext.maintenance_pre opts req0 = none →
     ext.redirects_pre opts req0 = none →
     ∀ q, ext.rewrites_pre opts req0 = (none, q) →
       ∃ rest, (handleT ext opts req0 addr).2 = preEvList ++ rest ∧
         ∀ e ∈ rest, e.isPre = false) := by
  refine ⟨?_, ?_, ?_, ?_, ?_, ?_, ?_, ?_, ?_⟩
  · intro r h
    simp [handleT, h]
  · intro h1 h2
    simp [handleT, h1, h2]
  · intro h1 h2 r h3
    simp [handleT, h1, h2, h3]
  · intro h1 h2 h3 r h4
    simp [handleT, h1, h2, h3, h4]
  · intro h1 h2 h3 h4 r h5
    simp [handleT, h1, h2, h3, h4, h5]
  · intro h1 h2 h3 h4 h5 r h6
    simp [handleT, h1, h2, h3, h4, h5, h6]
  · intro h1 h2 h3 h4 h5 h6 r h7
    simp [handleT, h1, h2, h3, h4, h5, h6, h7]
  · intro h1 h2 h3 h4 h5 h6 h7 r q h8
    simp [handleT, h1, h2, h3, h4, h5, h6, h7, h8]
  · intro h1 h2 h3 h4 h5 h6 h7 q h8
    simp only [handleT, h1, h2, h3, h4, h5, h6, h7, h8]
    cases hs : ext.static_handle (mkHandleOpts opts q (vhostBase ext opts q)) with
    | ok r =>
      obtain ⟨k, _, hk⟩ := postChain_trace ext opts q r.resp (some r.file_path)
        (preEvList ++ [Ev.staticFiles (mkHandleOpts opts q (vhostBase ext opts q))
          (.ok r.file_path)])
      refine ⟨[Ev.staticFiles (mkHandleOpts opts q (vhostBase ext opts q))
          (.ok r.file_path)] ++ (postTrace (some r.file_path)).take k, ?_, ?_⟩
      · simpa [List.append_assoc] using hk
      · intro e he
        rcases List.mem_append.mp he with he | he
        · simp only [List.mem_singleton] at he
          subst he; simp [Ev.isPre]
        · exact ((postTrace_flags _ e (List.mem_of_mem_take he)).2).1
    | error status =>
      cases he : ext.error_response q.uriPath q.method status opts.page404 opts.page50x with
      | ok resp =>
        simp only [he]
        obtain ⟨k, _, hk⟩ := postChain_trace ext opts q resp none
          (preEvList ++ [Ev.staticFiles (mkHandleOpts opts q (vhostBase ext opts q))
            (.error status), Ev.errorRender status opts.page404 opts.page50x])
        refine ⟨[Ev.staticFiles (mkHandleOpts opts q (vhostBase ext opts q))
            (.error status), Ev.errorRender status opts.page404 opts.page50x] ++
            (postTrace none).take k, ?_, ?_⟩
        · simpa [List.append_assoc] using hk
        · intro e hee
          rcases List.mem_append.mp hee with hee | hee
          · rcases List.mem_cons.mp hee with hee | hee
            · subst hee; simp [Ev.isPre]
            · simp only [List.mem_singleton] at hee
              subst hee; simp [Ev.isPre]
          · exact ((postTrace_flags _ e (List.mem_of_mem_take hee)).2).1
      | error e0 =>
        simp only [he]
        refine ⟨[Ev.staticFiles (mkHandleOpts opts q (vhostBase ext opts q))
            (.error status), Ev.errorRender status opts.page404 opts.page50x], by simp, ?_⟩
        intro e hee
        rcases List.mem_cons.mp hee with hee | hee
        · subst hee; simp [Ev.isPre]
        · simp only [List.mem_singleton] at hee
          subst hee; simp [Ev.isPre]

/-- C2: every response that reaches the post-transform half — from a
successful static resolution or from the error renderer on a resolution
failure — goes through the seven post-transform stages in the fixed order
fallback, CORS, compression-Vary, compression, cache-control, security
headers, custom headers, the last receiving the resolved path exactly on
static success. -/
theorem post_transform_chain_order (ext : Ext) (opts : RequestHandlerOpts)
    (req0 : Request) (addr : Option String) :
    ∀ res tr, handleT ext opts req0 addr = (res, tr) →
    ∀ resp, res = Except.ok resp →
    ∀ h out, Ev.staticFiles h out ∈ tr →
      (∀ p, out = Except.ok p → tr.filter Ev.isPost = postTrace (some p)) ∧
      (∀ st, out = Except.error st → tr.filter Ev.isPost = postTrace none) := by
  intro res tr hT resp hres h out hmem
  subst hres
  simp only [handleT] at hT
  repeat' split at hT
  -- pre-filter short-circuit branches: no static event is in the trace
  case _ => injection hT with h1 h2; subst h2; simp at hmem
  case _ => injection hT with h1 h2; subst h2; simp at hmem
  case _ => injection hT with h1 h2; subst h2; simp at hmem
  case _ => injection hT with h1 h2; subst h2; simp at hmem
  case _ => injection hT with h1 h2; subst h2; simp at hmem
  case _ => injection hT with h1 h2; subst h2; simp at hmem
  case _ => injection hT with h1 h2; subst h2; simp at hmem
  case _ => injection hT with h1 h2; subst h2; simp at hmem
  -- static resolution succeeded
  case _ =>
    have htr := postChain_ok_trace _ _ _ _ _ _ _ _ hT
    subst htr
    obtain ⟨rfl, rfl⟩ := staticFiles_mem_okTrace _ _ _ _ _ hmem
    constructor
    · intro p hp
      injection hp with hp1
      subst hp1
      simp [preEvList, postTrace, Ev.isPost, List.filter_append]
    · intro st hst
      exact absurd hst (by simp)
  -- static resolution failed, the error renderer produced a response
  case _ =>
    have htr := postChain_ok_trace _ _ _ _ _ _ _ _ hT
    subst htr
    obtain ⟨rfl, rfl⟩ := staticFiles_mem_errTrace _ _ _ _ _ _ _ _ hmem
    constructor
    · intro p hp
      exact absurd hp (by simp)
    · intro st hst
      injection hst with hst1
      subst hst1
      simp [preEvList, postTrace, Ev.isPost, List.filter_append]
  -- static resolution failed and the error renderer failed: no response
  case _ => exact absurd (congrArg Prod.fst hT) (by simp)

/-- Witness for C2: on the fixture's successful static resolution the
post filter of the trace is exactly the seven stages with the resolved
path at the custom-headers stage. -/
theorem post_transform_chain_order_w :
    (handleT extW optsW reqW none).2.filter Ev.isPost =
      postTrace (some "/public/a") :=
  ((post_transform_chain_order extW optsW reqW none
      (handleT extW optsW reqW none).1 (handleT extW optsW reqW none).2 rfl
      respW (by decide)
      (mkHandleOpts optsW reqW "/public") (Except.ok "/public/a")
      (by decide)).1) "/public/a" rfl

/-- Witness for C3: with collaborators whose health probe answers, the
dispatcher returns the probe's response with only the health stage run. -/
theorem pre_filter_order_short_circuit_w :
    handleT extHealth optsW reqW none = (Except.ok respW, [Ev.health]) :=
  (pre_filter_order_short_circuit extHealth optsW reqW none).1 (Except.ok respW) rfl

/-- If the address text contains no space, the annotation built without a
parsed client IP cannot be decomposed around a `" real_remote_ip="`
marker. -/
theorem no_realip_decomp (A a b : String)
    (hA : ∀ c ∈ A.data, c ≠ ' ')
    (h : " remote_addr=" ++ A = a ++ (" real_remote_ip=" ++ b)) : False := by
  have hd := congrArg String.data h
  rw [String.data_append, String.data_append, String.data_append] at hd
  have hAc : A.data.count ' ' = 0 :=
    List.count_eq_zero.mpr (fun hm => hA ' ' hm rfl)
  have hc := congrArg (List.count ' ') hd
  rw [List.count_append, List.count_append, List.count_append] at hc
  have e1 : (" remote_addr=").data.count ' ' = 1 := rfl
  have e2 : (" real_remote_ip=").data.count ' ' = 1 := rfl
  rw [e1, e2, hAc] at hc
  have ha0 : a.data.count ' ' = 0 := by omega
  cases haa : a.data with
  | nil =>
    rw [haa, List.nil_append] at hd
    have h3 : (" remote_addr=".data ++ A.data)[3]? =
        (" real_remote_ip=".data ++ b.data)[3]? := by rw [hd]
    rw [List.getElem?_append_left (by decide),
        List.getElem?_append_left (by decide)] at h3
    exact absurd h3 (by decide)
  | cons c cs =>
    rw [haa] at hd
    injection hd with h1 h2
    have hmem : ' ' ∈ a.data := by
      rw [haa, ← h1]
      exact List.mem_cons_self _ _
    exact (List.count_eq_zero.mp ha0) hmem

/-- C10: the remote-address annotation is empty when remote-address
logging is disabled; when enabled it starts with a `" remote_addr="`
entry, and it carries a `" real_remote_ip="` entry exactly when the
request's `X-Forwarded-For` header's first comma-separated element, after
trimming, parses as an IP address (the socket-address text, which never
contains a space, is abstracted by a space-free string). -/
theorem remote_addr_str_spec (ext : Ext) (opts : RequestHandlerOpts)
    (req : Request) (addr : Option String) :
    (opts.log_remote_address = false → remote_addr_str ext opts req addr = "") ∧
    (opts.log_remote_address = true →
      ((∃ rest, remote_addr_str ext opts req addr = " remote_addr=" ++ rest) ∧
       (xff_client_ip ext req.headers ≠ none →
         ∃ a b, remote_addr_str ext opts req addr = a ++ (" real_remote_ip=" ++ b)) ∧
       ((∀ c ∈ (addr.getD "").data, c ≠ ' ') →
         (∃ a b, remote_addr_str ext opts req addr = a ++ (" real_remote_ip=" ++ b)) →
         xff_client_ip ext req.headers ≠ none))) := by
  constructor
  · intro h
    simp [remote_addr_str, h]
  · intro h
    refine ⟨?_, ?_, ?_⟩
    · cases hx : xff_client_ip ext req.headers with
      | none => exact ⟨addr.getD "", by simp [remote_addr_str, h, hx]⟩
      | some ip =>
        refine ⟨addr.getD "" ++ (" real_remote_ip=" ++ ip), ?_⟩
        simp [remote_addr_str, h, hx, String.append_assoc]
    · intro hx
      cases hx2 : xff_client_ip ext req.headers with
      | none => exact absurd hx2 hx
      | some ip =>
        refine ⟨" remote_addr=" ++ addr.getD "", ip, ?_⟩
        simp [remote_addr_str, h, hx2, String.append_assoc]
    · intro hA hdec
      cases hx2 : xff_client_ip ext req.headers with
      | some ip => simp [hx2]
      | none =>
        obtain ⟨a, b, hab⟩ := hdec
        rw [show remote_addr_str ext opts req addr = " remote_addr=" ++ addr.getD ""
          from by simp [remote_addr_str, h, hx2]] at hab
        exact (no_realip_decomp _ _ _ hA hab).elim

/-- Witness for C10: with logging disabled the annotation is empty. -/
theorem remote_addr_str_spec_w : remote_addr_str extW optsW reqW none = "" :=
  (remote_addr_str_spec extW optsW reqW none).1 rfl

end SWS
